import Mathlib

/-!
Verification of the agent263 OCR/assessment services.

The Python sources (`main.py`, `ocr.py`, `ocr_api.py`) are shallowly embedded:
JSON values become an inductive type (numbers restricted to the integers the
assessment prompts require), Python dicts become ordered association lists with
Python's update semantics, and each external provider call becomes an explicit
outcome parameter, so that every control path of the translated functions is a
total Lean computation.
-/

namespace Agent263

/-- JSON values as produced by `json.loads` in the sources, with numbers
restricted to integers (the assessment/verification schemas only use
integer numbers). Objects are ordered key/value lists, mirroring Python's
insertion-ordered `dict`. -/
inductive Json where
  | null : Json
  | bool (b : Bool) : Json
  | num (n : Int) : Json
  | str (s : String) : Json
  | arr (xs : List Json) : Json
  | obj (kvs : List (String × Json)) : Json

/-- Lookup of a key in an ordered association list, as Python `d[k]` /
`d.get(k)` (keys produced by `json.loads` are unique; lookup takes the
first binding). -/
def getKey : List (String × Json) → String → Option Json
  | [], _ => none
  | (k, v) :: rest, k' => if k = k' then some v else getKey rest k'

/-- Python `d[k] = v`: replace the value at the first binding of `k`,
keeping its position, or append a fresh binding at the end. -/
def setKey : List (String × Json) → String → Json → List (String × Json)
  | [], k, v => [(k, v)]
  | (k', v') :: rest, k, v =>
    if k' = k then (k, v) :: rest else (k', v') :: setKey rest k v

/-- Python `k in d`. -/
def hasKey (kvs : List (String × Json)) (k : String) : Bool :=
  (getKey kvs k).isSome

/-- Field access on a JSON object. -/
def jGet : Json → String → Option Json
  | .obj kvs, k => getKey kvs k
  | _, _ => none

/-- Python truthiness of a JSON value (`if x:`). -/
def pyTruthy : Json → Bool
  | .null => false
  | .bool b => b
  | .num n => n != 0
  | .str s => s != ""
  | .arr xs => !xs.isEmpty
  | .obj kvs => !kvs.isEmpty

/-- The character `{` (via its code point, kept out of literals). -/
def lbrace : Char := Char.ofNat 123

/-- The character `}`. -/
def rbrace : Char := Char.ofNat 125

/-- The character `'`. -/
def squote : Char := Char.ofNat 39

mutual

/-- Size of a JSON value, used as recursion fuel for rendering. -/
def jsize : Json → Nat
  | .null => 1
  | .bool _ => 1
  | .num _ => 1
  | .str _ => 1
  | .arr xs => 1 + jsizeL xs
  | .obj kvs => 1 + jsizeKV kvs

/-- Size of a list of JSON values. -/
def jsizeL : List Json → Nat
  | [] => 0
  | x :: rest => jsize x + jsizeL rest

/-- Size of a JSON object body. -/
def jsizeKV : List (String × Json) → Nat
  | [] => 0
  | kv :: rest => jsize kv.2 + jsizeKV rest

end

/-- Python `repr` of a JSON value (as used for elements nested inside
containers when the f-strings of the sources format a value). The fuel
argument bounds nesting depth; callers pass `sizeOf`, which always
suffices. Strings are assumed not to contain quote characters, as in the
messages this system formats. -/
def pyReprFuel : Nat → Json → String
  | _, .null => "None"
  | _, .bool true => "True"
  | _, .bool false => "False"
  | _, .num n => toString n
  | _, .str s => String.singleton squote ++ s ++ String.singleton squote
  | 0, _ => ""
  | f + 1, .arr xs =>
    "[" ++ String.intercalate ", " (xs.map (pyReprFuel f)) ++ "]"
  | f + 1, .obj kvs =>
    String.singleton lbrace ++
      String.intercalate ", "
        (kvs.map (fun kv =>
          String.singleton squote ++ kv.1 ++ String.singleton squote ++ ": " ++
            pyReprFuel f kv.2)) ++
      String.singleton rbrace

/-- Python `str()` of a JSON value, as an f-string interpolation renders it:
a string renders bare, containers render via `repr`. -/
def pyStr (j : Json) : String :=
  match j with
  | .num n => toString n
  | .str s => s
  | .bool true => "True"
  | .bool false => "False"
  | .null => "None"
  | .arr _ => pyReprFuel (jsize j) j
  | .obj _ => pyReprFuel (jsize j) j

/-- Round-half-to-even on rationals. This is the IDEALIZED exact-rational
reading of `round(100 * total_awarded / total_possible)` — the formula the
original claim states. The program instead evaluates
`round((ta / tp) * 100)` in IEEE-754 binary64 floats (see `pyRound100Div`
below), which can differ: at ta = 109, tp = 200 the exact value 54.5
rounds half-even to 54, while the float evaluation yields 55. -/
def ratRoundHalfEven (q : Rat) : Int :=
  let f : Int := ⌊q⌋
  if q - f < (1 : Rat) / 2 then f
  else if (1 : Rat) / 2 < q - f then f + 1
  else if f % 2 = 0 then f else f + 1

/-- The idealized exact-rational rounding computed on integers, for a
positive denominator: round-half-to-even of `(100 * ta) / tp`. A
kernel-executable equivalent of `ratRoundHalfEven ((100 * ta : Rat) / tp)`
(the bridge is `roundPct_eq_spec`), used to evaluate the original claim's
formula at concrete inputs. (`Int` division `/`/`%` is euclidean, which
agrees with floor division for positive divisors.) -/
def roundPct (ta tp : Int) : Int :=
  let n := 100 * ta
  let q := n / tp
  let r := n % tp
  if 2 * r < tp then q
  else if tp < 2 * r then q + 1
  else if q % 2 = 0 then q else q + 1

/-!  IEEE-754 binary64 model of `round((total_awarded / total_possible) * 100)`
(main.py:1145, main.py:1424, ocr_api.py:232, ocr_api.py:511): CPython
evaluates `ta / tp` as a correctly-rounded double (raising OverflowError
when the quotient's magnitude reaches 2^1024), multiplies by 100 as a
correctly-rounded double (overflowing silently to infinity), and `round`
rounds the exact value of the resulting double half-to-even (raising on
infinity). A finite double is represented exactly as
(-1)^sign · m · 2^e with natural m, so all three steps are exact integer
arithmetic. -/

/-- Floor of log₂ via explicit fuel (`n` itself always suffices as fuel). -/
def log2F : Nat → Nat → Nat
  | 0, _ => 0
  | f + 1, n => if n ≥ 2 then log2F f (n / 2) + 1 else 0

/-- Floor of log₂ of a positive natural. -/
def natLog2 (n : Nat) : Nat := log2F n n

/-- Floor of log₂ of the positive rational n/d. -/
def ilog2Ratio (n d : Nat) : Int :=
  let k : Int := (natLog2 n : Int) - (natLog2 d : Int)
  if 0 ≤ k then
    (if d * 2 ^ k.toNat ≤ n then k else k - 1)
  else
    (if d ≤ n * 2 ^ (-k).toNat then k else k - 1)

/-- Round-half-to-even of the nonnegative rational n/d (d positive). -/
def rheDiv (n d : Nat) : Nat :=
  let q := n / d
  let r := n % d
  if 2 * r < d then q
  else if d < 2 * r then q + 1
  else if q % 2 = 0 then q else q + 1

/-- Correctly round the positive rational n/d to IEEE-754 binary64
(round to nearest, ties to even): an exact representation (m, e) of the
resulting double, with value m · 2^e; subnormal results use e = -1074;
`none` when the rounded magnitude reaches 2^1024 (overflow). -/
def roundB64Pos (n d : Nat) : Option (Nat × Int) :=
  let e : Int := max (ilog2Ratio n d - 52) (-1074)
  let m : Nat :=
    if 0 ≤ e then rheDiv n (d * 2 ^ e.toNat)
    else rheDiv (n * 2 ^ (-e).toNat) d
  if 0 ≤ e then
    (if 2 ^ 1024 ≤ m * 2 ^ e.toNat then none else some (m, e))
  else
    (if 2 ^ (1024 + (-e).toNat) ≤ m then none else some (m, e))

/-- A finite binary64 value, exactly: (-1)^sign · m · 2^e. -/
structure B64 where
  sign : Bool
  m : Nat
  e : Int

/-- Python `a / b` on ints (true division, b nonzero): the correctly
rounded binary64 quotient; `none` models the OverflowError CPython raises
when the result does not fit a double. -/
def pyDivFloat (a b : Int) : Option B64 :=
  if a = 0 then some ⟨false, 0, 0⟩
  else
    match roundB64Pos a.natAbs b.natAbs with
    | none => none
    | some me => some ⟨decide (a < 0) != decide (b < 0), me.1, me.2⟩

/-- Binary64 multiplication of a finite double by the exact integer 100
(Python `float * int`): the exact product re-rounded; `none` models an
infinite result. -/
def mulFloat100 (x : B64) : Option B64 :=
  if x.m = 0 then some x
  else
    match (if 0 ≤ x.e then roundB64Pos (x.m * 100 * 2 ^ x.e.toNat) 1
           else roundB64Pos (x.m * 100) (2 ^ (-x.e).toNat)) with
    | none => none
    | some me => some ⟨x.sign, me.1, me.2⟩

/-- Python `round` of a finite binary64 value with no ndigits argument:
half-to-even on the exact value of the double, returning an int. -/
def roundFloatToInt (x : B64) : Int :=
  let mag : Nat :=
    if 0 ≤ x.e then x.m * 2 ^ x.e.toNat
    else rheDiv x.m (2 ^ (-x.e).toNat)
  if x.sign then -(mag : Int) else (mag : Int)

/-- The expression `round((total_awarded / total_possible) * 100)` of
main.py:1145 as CPython evaluates it: binary64 division (OverflowError on
a too-large quotient), binary64 multiplication by 100 (infinity on
overflow), and `round` (raising OverflowError on infinity). An
`Except.error` is an exception propagating to the enclosing `except`. -/
def pyRound100Div (ta tp : Int) : Except String Int :=
  match pyDivFloat ta tp with
  | none => .error "integer division result too large for a float"
  | some x =>
    match mulFloat100 x with
    | none => .error "cannot convert float infinity to integer"
    | some y => .ok (roundFloatToInt y)

/-- Python `==` between the `int` `calculated_percentage` and an arbitrary
JSON value (`assessment.get("marks_percentage", 0)`): numeric against
numeric compares values, `bool` compares as 0/1, anything else is unequal. -/
def pyEqInt (c : Int) : Json → Bool
  | .num n => c == n
  | .bool b => c == (if b then (1 : Int) else 0)
  | _ => false

/-- One `details.get(field, 0)` read inside the mark tally of
`assess_submitted_assignment` followed by `+=`: a missing field contributes
0, an integer contributes itself, a `bool` coerces to 0/1, any other value
makes the addition raise `TypeError` (and a non-dict entry makes `.get`
raise `AttributeError`); raising is modelled as `Except.error`. -/
def detailMark (d : Json) (field : String) : Except String Int :=
  match d with
  | .obj kvs =>
    match getKey kvs field with
    | none => .ok 0
    | some (.num n) => .ok n
    | some (.bool b) => .ok (if b then 1 else 0)
    | some _ => .error "unsupported operand type(s) for +="
  | _ => .error "object has no attribute get"

/-- The accumulator loop
`for q, details in assessment.get("assessment_details", {}).items(): ...`
from `assess_submitted_assignment` (main.py:1139-1141 and the twin copies). -/
def tallyAux (ta tp : Int) : List (String × Json) → Except String (Int × Int)
  | [] => .ok (ta, tp)
  | (_, d) :: rest =>
    match detailMark d "awarded_marks" with
    | .error e => .error e
    | .ok a =>
      match detailMark d "max_marks" with
      | .error e => .error e
      | .ok m => tallyAux (ta + a) (tp + m) rest

/-- Total awarded and possible marks over `assessment_details`. -/
def tally (dts : List (String × Json)) : Except String (Int × Int) :=
  tallyAux 0 0 dts

/-- `assessment.get("assessment_details", {})` followed by `.items()`:
a missing key defaults to the empty dict, a non-dict value makes
`.items()` raise. -/
def assessDetailsOf (a : List (String × Json)) : Except String (List (String × Json)) :=
  match getKey a "assessment_details" with
  | none => .ok []
  | some (.obj dts) => .ok dts
  | some _ => .error "object has no attribute items"

/-- The server-side mark-consistency check of `assess_submitted_assignment`
(main.py:1135-1151, main.py:1414-1430, ocr_api.py:501-517): tally the
per-question marks, recompute the percentage with Python's
float-arithmetic `round((total_awarded / total_possible) * 100)`, and
write the `mark_consistency_check` key. -/
def consistencyAnnotate (a : List (String × Json)) : Except String (List (String × Json)) :=
  match assessDetailsOf a with
  | .error e => .error e
  | .ok dts =>
    match tally dts with
    | .error e => .error e
    | .ok (ta, tp) =>
      match (if 0 < tp then pyRound100Div ta tp else .ok 0 :
          Except String Int) with
      | .error e => .error e
      | .ok c =>
        let reported : Json := (getKey a "marks_percentage").getD (Json.num 0)
        let mcc : String :=
          if pyEqInt c reported then "Verified"
          else "Inconsistency detected: Calculated " ++ toString c ++
            "% vs Reported " ++ pyStr reported ++ "%"
        .ok (setKey a "mark_consistency_check" (Json.str mcc))

/-- Index of the first occurrence of a character. -/
def firstIdx (cs : List Char) (c : Char) : Option Nat :=
  match cs with
  | [] => none
  | x :: rest =>
    if x = c then some 0
    else match firstIdx rest c with
      | some i => some (i + 1)
      | none => none

/-- Index of the last occurrence of a character. -/
def lastIdx (cs : List Char) (c : Char) : Option Nat :=
  match cs with
  | [] => none
  | x :: rest =>
    match lastIdx rest c with
    | some i => some (i + 1)
    | none => if x = c then some 0 else none

/-- The greedy JSON extraction of the sources:
`re.search(r'\x7b[\s\S]*\x7d', text)` (and its `re.DOTALL` twin in ocr.py)
matches from the first opening brace to the last closing brace after it,
or fails when no such span exists. -/
def extractJsonSpan (t : String) : Option String :=
  let cs := t.toList
  match firstIdx cs lbrace, lastIdx cs rbrace with
  | some i, some j =>
    if i < j then some (String.mk ((cs.drop i).take (j - i + 1))) else none
  | _, _ => none

/-- Skip JSON whitespace. -/
def skipWs : List Char → List Char
  | [] => []
  | c :: cs =>
    if c = ' ' ∨ c = '\n' ∨ c = '\t' ∨ c = '\r' then skipWs cs else c :: cs

/-- Strip an expected literal character sequence. -/
def stripLit : List Char → List Char → Option (List Char)
  | [], cs => some cs
  | p :: ps, c :: cs => if c = p then stripLit ps cs else none
  | _ :: _, [] => none

/-- Parse a run of decimal digits into a natural number. -/
def parseDigits (fuel : Nat) (cs : List Char) (acc : Nat) (seen : Bool) :
    Except String (Nat × List Char) :=
  match fuel with
  | 0 => .error "Expecting value"
  | f + 1 =>
    match cs with
    | [] => if seen then .ok (acc, []) else .error "Expecting value"
    | c :: rest =>
      if c.isDigit then parseDigits f rest (acc * 10 + (c.toNat - 48)) true
      else if seen then .ok (acc, c :: rest)
      else .error "Expecting value"

/-- Parse the body of a double-quoted JSON string (opening quote already
consumed), handling the single-character escapes. -/
def parseStringBody (fuel : Nat) (cs : List Char) (acc : List Char) :
    Except String (String × List Char) :=
  match fuel with
  | 0 => .error "Unterminated string"
  | f + 1 =>
    match cs with
    | [] => .error "Unterminated string"
    | c :: rest =>
      if c = '"' then .ok (String.mk acc.reverse, rest)
      else if c = '\\' then
        match rest with
        | [] => .error "Unterminated string"
        | e :: rest2 =>
          if e = '"' then parseStringBody f rest2 ('"' :: acc)
          else if e = '\\' then parseStringBody f rest2 ('\\' :: acc)
          else if e = '/' then parseStringBody f rest2 ('/' :: acc)
          else if e = 'n' then parseStringBody f rest2 ('\n' :: acc)
          else if e = 't' then parseStringBody f rest2 ('\t' :: acc)
          else if e = 'r' then parseStringBody f rest2 ('\r' :: acc)
          else if e = 'b' then parseStringBody f rest2 (Char.ofNat 8 :: acc)
          else if e = 'f' then parseStringBody f rest2 (Char.ofNat 12 :: acc)
          else .error "Invalid escape"
      else parseStringBody f rest (c :: acc)

mutual

/-- Parse one JSON value (integer-number subset of the grammar accepted by
`json.loads`; the schemas of this system only use integers). -/
def parseVal : Nat → List Char → Except String (Json × List Char)
  | 0, _ => .error "Expecting value"
  | f + 1, cs =>
    match skipWs cs with
    | [] => .error "Expecting value"
    | c :: rest =>
      if c = lbrace then parseObjStart f rest
      else if c = '[' then parseArrStart f rest
      else if c = '"' then
        match parseStringBody f rest [] with
        | .ok (s, rest2) => .ok (.str s, rest2)
        | .error e => .error e
      else if c = '-' then
        match parseDigits f rest 0 false with
        | .ok (n, rest2) => .ok (.num (-(n : Int)), rest2)
        | .error e => .error e
      else if c.isDigit then
        match parseDigits f (c :: rest) 0 false with
        | .ok (n, rest2) => .ok (.num (n : Int), rest2)
        | .error e => .error e
      else if c = 't' then
        match stripLit ['r', 'u', 'e'] rest with
        | some rest2 => .ok (.bool true, rest2)
        | none => .error "Expecting value"
      else if c = 'f' then
        match stripLit ['a', 'l', 's', 'e'] rest with
        | some rest2 => .ok (.bool false, rest2)
        | none => .error "Expecting value"
      else if c = 'n' then
        match stripLit ['u', 'l', 'l'] rest with
        | some rest2 => .ok (.null, rest2)
        | none => .error "Expecting value"
      else .error "Expecting value"

/-- Parse an object after its opening brace: empty object or members. -/
def parseObjStart : Nat → List Char → Except String (Json × List Char)
  | 0, _ => .error "Expecting value"
  | f + 1, cs =>
    match skipWs cs with
    | [] => .error "Unterminated object"
    | c :: rest =>
      if c = rbrace then .ok (.obj [], rest)
      else parseObjMember f (c :: rest) []

/-- Parse one `"key": value` member and the following separator.
Duplicate keys behave as repeated `dict` assignment: last value wins at
the first occurrence's position. -/
def parseObjMember : Nat → List Char → List (String × Json) →
    Except String (Json × List Char)
  | 0, _, _ => .error "Expecting value"
  | f + 1, cs, acc =>
    match skipWs cs with
    | [] => .error "Unterminated object"
    | c :: rest =>
      if c = '"' then
        match parseStringBody f rest [] with
        | .error e => .error e
        | .ok (k, rest2) =>
          match skipWs rest2 with
          | ':' :: rest3 =>
            match parseVal f rest3 with
            | .error e => .error e
            | .ok (v, rest4) =>
              let acc2 := setKey acc k v
              match skipWs rest4 with
              | ',' :: rest5 => parseObjMember f rest5 acc2
              | c2 :: rest5 =>
                if c2 = rbrace then .ok (.obj acc2, rest5)
                else .error "Expecting delimiter"
              | [] => .error "Unterminated object"
          | _ => .error "Expecting colon"
      else .error "Expecting property name"

/-- Parse an array after its opening bracket: empty array or elements. -/
def parseArrStart : Nat → List Char → Except String (Json × List Char)
  | 0, _ => .error "Expecting value"
  | f + 1, cs =>
    match skipWs cs with
    | [] => .error "Unterminated array"
    | c :: rest =>
      if c = ']' then .ok (.arr [], rest)
      else parseArrElem f (c :: rest) []

/-- Parse one array element and the following separator. -/
def parseArrElem : Nat → List Char → List Json →
    Except String (Json × List Char)
  | 0, _, _ => .error "Expecting value"
  | f + 1, cs, acc =>
    match parseVal f cs with
    | .error e => .error e
    | .ok (v, rest) =>
      match skipWs rest with
      | ',' :: rest2 => parseArrElem f rest2 (v :: acc)
      | ']' :: rest2 => .ok (.arr (v :: acc).reverse, rest2)
      | _ => .error "Expecting delimiter"

end

/-- `json.loads`: parse a complete JSON document, rejecting trailing
garbage. -/
def parseJson (s : String) : Except String Json :=
  let cs := s.toList
  match parseVal (4 * cs.length + 16) cs with
  | .error e => .error e
  | .ok (j, rest) =>
    if (skipWs rest).isEmpty then .ok j else .error "Extra data"

/-- Outcome of one generative-model call (`client.chat.complete` or
`gemini_model.generate_content`): either the call raised with a message,
or it returned response text. -/
inductive GenOutcome where
  | raised (msg : String)
  | text (t : String)

/-- The five document categories (main.py:380-386, ocr.py:35-41). -/
def VALID_CATEGORIES : List String :=
  ["Proof of Identity", "Proof of Residence", "Proof of Income",
   "Employment Letter", "Application Form"]

/-- The ten academic modules (main.py:115-121, ocr_api.py:112-118). -/
def VALID_MODULES : List String :=
  ["Machine Learning", "Data Structures and Algorithms",
   "Database Systems", "Operating Systems",
   "Computer Networks", "Software Engineering",
   "Artificial Intelligence", "Cloud Computing",
   "Web Development", "Cybersecurity Fundamentals"]

/-- The accepted upload media types. -/
def valid_types : List String := ["application/pdf", "image/jpeg", "image/png"]

/-- Required keys of an assessment response
(main.py:1130-1131, main.py:1409-1410, ocr_api.py:217-218, 496-497). -/
def requiredAssessKeys : List String :=
  ["is_correct_module", "confidence_assessment_score",
   "marks_percentage", "overall_feedback", "assessment_details"]

/-- Required keys of a main.py verification response (main.py:553). -/
def requiredVerifyKeys : List String :=
  ["verified", "confidence", "reason", "correct_category"]

/-- Required keys of an ocr.py verification response (ocr.py:190). -/
def requiredVerifyKeysOcr : List String :=
  ["verified", "confidence", "reason", "missing_fields"]

/-- Regex extraction followed by `json.loads`, shared by the Gemini-backed
flows (assessment in main.py/ocr_api.py, verification in ocr.py). -/
def extractThenParse (t : String) : Except String Json :=
  match extractJsonSpan t with
  | none => .error "No JSON found in Gemini response"
  | some s => parseJson s

/-- The `try:` body of `assess_submitted_assignment` after the provider
call: extract JSON, parse, check required keys, run the consistency check
(main.py:1119-1153, main.py:1398-1435, ocr_api.py:206-240, 485-522).
An `Except.error` is an exception reaching the `except` clause. -/
def assessCore (gen : GenOutcome) : Except String (List (String × Json)) :=
  match gen with
  | .raised m => .error m
  | .text t =>
    match extractThenParse t with
    | .error e => .error e
    | .ok (Json.obj a) =>
      if requiredAssessKeys.all (fun k => hasKey a k) then consistencyAnnotate a
      else .error "Invalid assessment response format"
    | .ok _ => .error "Invalid assessment response format"

/-- The fallback assessment object built by the `except` clause of the
v1 `assess_submitted_assignment` (main.py:1155-1168, ocr_api.py:242-255). -/
def errorAssessmentV1 (msg : String) : Json :=
  Json.obj
    [("is_correct_module", .bool false),
     ("confidence_assessment_score", .num 0),
     ("total_possible_marks", .num 0),
     ("marks_achieved", .num 0),
     ("marks_percentage", .num 0),
     ("overall_feedback", .str ("Assessment failed: " ++ msg)),
     ("strengths", .arr []),
     ("improvements", .arr [.str "Technical error occurred during assessment"]),
     ("criteria", .arr []),
     ("assessment_details", .obj []),
     ("mark_consistency_check", .str "Not performed due to error")]

/-- The fallback assessment object of the v2 variant, which additionally
reports `marking_scheme_used = False` (main.py:1437-1451, ocr_api.py:524-538). -/
def errorAssessmentV2 (msg : String) : Json :=
  Json.obj
    [("is_correct_module", .bool false),
     ("confidence_assessment_score", .num 0),
     ("total_possible_marks", .num 0),
     ("marks_achieved", .num 0),
     ("marks_percentage", .num 0),
     ("overall_feedback", .str ("Assessment failed: " ++ msg)),
     ("strengths", .arr []),
     ("improvements", .arr [.str "Technical error occurred during assessment"]),
     ("criteria", .arr []),
     ("assessment_details", .obj []),
     ("mark_consistency_check", .str "Not performed due to error"),
     ("marking_scheme_used", .bool false)]

/-- `assess_submitted_assignment` without marking scheme
(main.py:1041-1168, ocr_api.py:120-255). -/
def assess_submitted_assignment_v1 (gen : GenOutcome) : Json :=
  match assessCore gen with
  | .ok a => Json.obj a
  | .error m => errorAssessmentV1 m

/-- The `if marking_scheme:` branch choice during prompt assembly of the
v2 `assess_submitted_assignment` (main.py:1342-1357, ocr_api.py:429-444):
`true` means the marking-scheme section is interpolated, `false` means the
standard-criteria section is. Python truthiness, so an empty dict selects
the standard criteria. -/
def promptSchemeSection (scheme : Option Json) : Bool :=
  match scheme with
  | some j => pyTruthy j
  | none => false

/-- `assess_submitted_assignment` with optional marking scheme
(main.py:1309-1451, ocr_api.py:396-538): same pipeline as v1, then the
`marking_scheme_used` key is written as `marking_scheme is not None`. -/
def assess_submitted_assignment_v2 (scheme : Option Json) (gen : GenOutcome) : Json :=
  match assessCore gen with
  | .ok a => Json.obj (setKey a "marking_scheme_used" (Json.bool scheme.isSome))
  | .error m => errorAssessmentV2 m

/-- The `try:` body of main.py's `verify_document_category`
(main.py:504-561): the Mistral chat call returns JSON-formatted content
which is parsed directly (no regex step), required keys are checked, and a
`correct_category` outside the allow-list is coerced back to the
caller-supplied category. -/
def verifyMainCore (category : String) (gen : GenOutcome) :
    Except String (List (String × Json)) :=
  match gen with
  | .raised m => .error m
  | .text t =>
    match parseJson t with
    | .error e => .error e
    | .ok (Json.obj v) =>
      if requiredVerifyKeys.all (fun k => hasKey v k) then
        .ok (match getKey v "correct_category" with
          | some (Json.str s) =>
            if s ∈ VALID_CATEGORIES then v
            else setKey v "correct_category" (Json.str category)
          | _ => setKey v "correct_category" (Json.str category))
      else .error "Invalid verification response format"
    | .ok _ => .error "Invalid verification response format"

/-- The fallback verification object of main.py's `except` clause
(main.py:563-569). -/
def errorVerification (category msg : String) : Json :=
  Json.obj
    [("verified", .bool false),
     ("confidence", .num 0),
     ("reason", .str ("Verification failed: " ++ msg)),
     ("correct_category", .str category)]

/-- main.py's `verify_document_category` (main.py:502-569). -/
def verify_document_category (category : String) (gen : GenOutcome) : Json :=
  match verifyMainCore category gen with
  | .ok v => Json.obj v
  | .error m => errorVerification category m

/-- The `try:` body of ocr.py's `verify_document_category`
(ocr.py:157-194): Gemini call, regex extraction, parse, required keys. -/
def verifyOcrCore (gen : GenOutcome) : Except String (List (String × Json)) :=
  match gen with
  | .raised m => .error m
  | .text t =>
    match extractThenParse t with
    | .error e => .error e
    | .ok (Json.obj v) =>
      if requiredVerifyKeysOcr.all (fun k => hasKey v k) then .ok v
      else .error "Invalid verification response format"
    | .ok _ => .error "Invalid verification response format"

/-- The fallback verification object of ocr.py's `except` clause
(ocr.py:196-202). -/
def errorVerificationOcr (msg : String) : Json :=
  Json.obj
    [("verified", .bool false),
     ("confidence", .num 0),
     ("reason", .str ("Verification failed: " ++ msg)),
     ("missing_fields", .arr [])]

/-- ocr.py's `verify_document_category` (ocr.py:155-202). -/
def verify_document_category_ocr (gen : GenOutcome) : Json :=
  match verifyOcrCore gen with
  | .ok v => Json.obj v
  | .error m => errorVerificationOcr m

/-- Where (if anywhere) one run of `process_file` fails. The constructors
follow the statement order of main.py:388-444 (and ocr.py:103-153):
`earlyFail` is an exception while reading the upload stream or writing it
to the temporary file, inside the `with tempfile.NamedTemporaryFile(...)`
block and before `tmp_path = tmp.name` executes; the remaining failures
are the three provider calls; `success` carries the joined markdown, the
provider file id and the signed URL. -/
inductive OcrOutcome where
  | earlyFail (msg : String)
  | uploadFail (msg : String)
  | signFail (msg : String)
  | ocrFail (msg : String)
  | success (md fid furl : String)

/-- How many provider calls one `process_file` run with this outcome
performs (`files.upload`, `files.get_signed_url`, `ocr.process`). -/
def ocrCalls : OcrOutcome → Nat
  | .earlyFail _ => 0
  | .uploadFail _ => 1
  | .signFail _ => 2
  | .ocrFail _ => 3
  | .success _ _ _ => 3

/-- State of the per-request temporary file. -/
structure TmpState where
  onDisk : Bool
  tmpPathAssigned : Bool
deriving DecidableEq

/-- The `except` clause of `process_file` (main.py:440-443, ocr.py:149-152):
`if 'tmp_path' in locals() and os.path.exists(tmp_path): os.unlink(tmp_path)`.
-/
def exceptCleanup (s : TmpState) : TmpState :=
  if s.tmpPathAssigned && s.onDisk then { s with onDisk := false } else s

/-- One run of `process_file` (main.py:388-444), tracking the temporary
file: `NamedTemporaryFile` creates it on disk at block entry; `tmp_path`
is assigned only after `file.file.read()` and `tmp.write(content)` have
succeeded; the success path `os.unlink`s before returning; every raise is
routed through `exceptCleanup`. Returns the final temp-file state and
either the `(markdown, file_id, file_url)` triple or the detail of the
`HTTPException(500, ...)` that `process_file` raises. -/
def process_file_run (o : OcrOutcome) :
    TmpState × Except String (String × String × String) :=
  match o with
  | .earlyFail m =>
    (exceptCleanup ⟨true, false⟩, .error ("OCR processing failed: " ++ m))
  | .uploadFail m =>
    (exceptCleanup ⟨true, true⟩, .error ("OCR processing failed: " ++ m))
  | .signFail m =>
    (exceptCleanup ⟨true, true⟩, .error ("OCR processing failed: " ++ m))
  | .ocrFail m =>
    (exceptCleanup ⟨true, true⟩, .error ("OCR processing failed: " ++ m))
  | .success md fid furl => (⟨false, true⟩, .ok (md, fid, furl))

/-- The uploaded file as the endpoints see it: original filename and
client-declared content type. -/
structure ReqFile where
  filename : String
  content_type : String

/-- An HTTP response: a 200 JSON body, or an `HTTPException` with status
code and detail string. -/
inductive HttpResult where
  | ok (body : Json)
  | err (status : Nat) (detail : String)

/-- Is the result a JSON-array 200 response? -/
def isArrayResult : HttpResult → Bool
  | .ok (Json.arr _) => true
  | _ => false

/-- Python `markdown_content.count('\n\n')`: non-overlapping occurrences,
scanned left to right. -/
def countNN : List Char → Nat
  | '\n' :: '\n' :: rest => 1 + countNN rest
  | _ :: rest => countNN rest
  | [] => 0

/-- `str(HTTPException(500, d))` under Starlette:
`f"\x7bstatus_code\x7d: \x7bdetail\x7d"`. -/
def httpExcStr (d : String) : String := "500: " ++ d

/-- The `/api/v1/agents/ocr/verify-document` handler `unified_ocr`
(main.py:620-677): category gate, media-type gate, OCR delegation,
verification, response assembly. The second component counts provider
calls made. -/
def unified_ocr (category : String) (file : ReqFile) (ocr : OcrOutcome)
    (gen : GenOutcome) : HttpResult × Nat :=
  if category ∉ VALID_CATEGORIES then
    (.err 400 ("Invalid category. Valid categories: " ++
      String.intercalate ", " VALID_CATEGORIES), 0)
  else if file.content_type ∉ valid_types then
    (.err 400 ("Unsupported file type. Supported types: " ++
      String.intercalate ", " valid_types), 0)
  else
    match (process_file_run ocr).2 with
    | .error m => (.err 500 (httpExcStr m), ocrCalls ocr)
    | .ok (md, fid, furl) =>
      let verification := verify_document_category category gen
      let corrected : Json := (jGet verification "correct_category").getD (.str category)
      (.ok (Json.obj
        [("category", corrected),
         ("filename", .str file.filename),
         ("content_type", .str file.content_type),
         ("ocr_type", .str (if file.content_type = "application/pdf"
            then "document" else "image")),
         ("markdown", .str md),
         ("pages", .num ((countNN md.toList : Int) + 1)),
         ("verification", verification),
         ("file_id", .str fid),
         ("file_url", .str furl),
         ("view_url", .str ("/file-view/" ++ fid))]),
       ocrCalls ocr + 1)

/-- The v1 `/api/v1/agents/student/assessment` handler `assess_assignment`
(main.py:1250-1306): module gate, media-type gate, OCR, assessment,
response assembly. -/
def assess_assignment_endpoint_v1 (module : String) (file : ReqFile)
    (ocr : OcrOutcome) (gen : GenOutcome) : HttpResult × Nat :=
  if module ∉ VALID_MODULES then
    (.err 400 ("Invalid module. Valid modules: " ++
      String.intercalate ", " VALID_MODULES), 0)
  else if file.content_type ∉ valid_types then
    (.err 400 ("Unsupported file type. Supported types: " ++
      String.intercalate ", " valid_types), 0)
  else
    match (process_file_run ocr).2 with
    | .error m => (.err 500 (httpExcStr m), ocrCalls ocr)
    | .ok (md, fid, furl) =>
      let assessment := assess_submitted_assignment_v1 gen
      (.ok (Json.obj
        [("module", .str module),
         ("filename", .str file.filename),
         ("content_type", .str file.content_type),
         ("ocr_type", .str (if file.content_type = "application/pdf"
            then "document" else "image")),
         ("markdown", .str md),
         ("pages", .num ((countNN md.toList : Int) + 1)),
         ("assessment", assessment),
         ("file_id", .str fid),
         ("file_url", .str furl),
         ("view_url", .str ("/file-view/" ++ fid))]),
       ocrCalls ocr + 1)

/-- The marking-scheme form-parameter handling of the v2 endpoint
(main.py:1585-1594): `scheme_dict = None; if marking_scheme:
scheme_dict = json.loads(marking_scheme)`, with a JSON error surfaced as a
400. The empty string is falsy, so it leaves the scheme as `None`. -/
def parseSchemeParam (ms : Option String) : Except String (Option Json) :=
  match ms with
  | none => .ok none
  | some s =>
    if s = "" then .ok none
    else
      match parseJson s with
      | .ok j => .ok (some j)
      | .error e => .error e

/-- Truthiness of the parsed scheme (`if scheme_dict:`). -/
def schemeTruthy (scheme : Option Json) : Bool :=
  match scheme with
  | some j => pyTruthy j
  | none => false

/-- The v2 `/api/v2/agents/student/assessment` handler `assess_assignment`
(main.py:1546-1626): gates, marking-scheme parse, OCR, assessment with
scheme, response assembly; `marking_scheme` is echoed into the body only
when the parsed scheme is truthy. -/
def assess_assignment_endpoint_v2 (module : String) (file : ReqFile)
    (marking_scheme : Option String) (ocr : OcrOutcome) (gen : GenOutcome) :
    HttpResult × Nat :=
  if module ∉ VALID_MODULES then
    (.err 400 ("Invalid module. Valid modules: " ++
      String.intercalate ", " VALID_MODULES), 0)
  else if file.content_type ∉ valid_types then
    (.err 400 ("Unsupported file type. Supported types: " ++
      String.intercalate ", " valid_types), 0)
  else
    match parseSchemeParam marking_scheme with
    | .error e => (.err 400 ("Invalid marking scheme JSON: " ++ e), 0)
    | .ok scheme =>
      match (process_file_run ocr).2 with
      | .error m => (.err 500 (httpExcStr m), ocrCalls ocr)
      | .ok (md, fid, furl) =>
        let assessment := assess_submitted_assignment_v2 scheme gen
        let base : List (String × Json) :=
          [("module", .str module),
           ("filename", .str file.filename),
           ("content_type", .str file.content_type),
           ("ocr_type", .str (if file.content_type = "application/pdf"
              then "document" else "image")),
           ("markdown", .str md),
           ("pages", .num ((countNN md.toList : Int) + 1)),
           ("assessment", assessment),
           ("file_id", .str fid),
           ("file_url", .str furl),
           ("view_url", .str ("/file-view/" ++ fid))]
        let body :=
          if schemeTruthy scheme then
            setKey base "marking_scheme" (scheme.getD Json.null)
          else base
        (.ok (Json.obj body), ocrCalls ocr + 1)

/-- One result entry of the general-OCR batch loop
(main.py:1692-1698, ocr_api.py:779-785). -/
def generalEntry (f : ReqFile) : OcrOutcome → Json
  | .success md fid furl =>
    Json.obj
      [("documentName", .str f.filename),
       ("markdown", .str md),
       ("file_id", .str fid),
       ("file_url", .str furl),
       ("view_url", .str ("/file-view/" ++ fid))]
  | _ => Json.null

/-- The `for file in files:` loop of `general_ocr`
(main.py:1687-1702): process each file in order, abort the whole request
with a 500 at the first OCR failure. -/
def generalLoop : List (ReqFile × OcrOutcome) → List Json → Nat →
    HttpResult × Nat
  | [], acc, n => (.ok (Json.arr acc.reverse), n)
  | (f, o) :: rest, acc, n =>
    match (process_file_run o).2 with
    | .error m =>
      (.err 500 ("OCR processing failed: " ++ httpExcStr m), n + ocrCalls o)
    | .ok _ => generalLoop rest (generalEntry f o :: acc) (n + ocrCalls o)

/-- The `/api/v1/agents/ocr/general` handler `general_ocr`
(main.py:1662-1702, ocr_api.py:749-789): the media-type gate filters the
whole batch before any processing; then each file is OCR-processed in
upload order. -/
def general_ocr (files : List (ReqFile × OcrOutcome)) : HttpResult × Nat :=
  let invalid :=
    (files.filter (fun fo => fo.1.content_type ∉ valid_types)).map
      (fun fo => fo.1.filename)
  if !invalid.isEmpty then
    (.err 400 ("Unsupported file types for: " ++
      String.intercalate ", " invalid ++ ". Supported types: " ++
      String.intercalate ", " valid_types), 0)
  else generalLoop files [] 0

/-- Did this `process_file` run succeed? -/
def OcrOutcome.isSuccess : OcrOutcome → Bool
  | .success _ _ _ => true
  | _ => false

/-!  Specification-side definitions: direct transcriptions of the claims'
formulas, to be compared with the translated code above. -/

/-- The `awarded_marks` field of one assessment-details entry, a missing
field counting as 0 (spec formula side). -/
def awardedOf (d : Json) : Int :=
  match jGet d "awarded_marks" with
  | some (.num n) => n
  | _ => 0

/-- The `max_marks` field of one assessment-details entry, a missing field
counting as 0 (spec formula side). -/
def maxOf (d : Json) : Int :=
  match jGet d "max_marks" with
  | some (.num n) => n
  | _ => 0

/-- `Σ awarded_marks` over the assessment details (spec formula side). -/
def sumAwarded (dts : List (String × Json)) : Int :=
  (dts.map (fun kv => awardedOf kv.2)).sum

/-- `Σ max_marks` over the assessment details (spec formula side). -/
def sumMax (dts : List (String × Json)) : Int :=
  (dts.map (fun kv => maxOf kv.2)).sum

/-- Is this field absent or an integer? -/
def fieldIntOk (kvs : List (String × Json)) (f : String) : Bool :=
  match getKey kvs f with
  | none => true
  | some (.num _) => true
  | some _ => false

/-- Is this assessment-details entry an object whose mark fields are
absent or integers (the domain the claims' sum formulas speak about)? -/
def detailNumeric (d : Json) : Bool :=
  match d with
  | .obj kvs => fieldIntOk kvs "awarded_marks" && fieldIntOk kvs "max_marks"
  | _ => false

/-- All assessment-details entries are numeric. -/
def detailsNumeric (dts : List (String × Json)) : Bool :=
  dts.all (fun kv => detailNumeric kv.2)

/-- The ORIGINAL claim's `calculated_percentage` formula:
`round(100 * total_awarded / total_possible)` read as Python rounding of
the exact rational, when `total_possible > 0`, else 0. The program's
float evaluation disagrees with it at e.g. ta = 109, tp = 200. -/
def calcPct (ta tp : Int) : Int :=
  if 0 < tp then ratRoundHalfEven ((100 * ta : Rat) / (tp : Rat)) else 0

/-- The original claim's `mark_consistency_check` value built from
`calcPct`: `"Verified"` exactly when the recomputed percentage equals the
reported one, otherwise a message naming both percentages. -/
def mccSpec (ta tp p : Int) : String :=
  if calcPct ta tp = p then "Verified"
  else "Inconsistency detected: Calculated " ++ toString (calcPct ta tp) ++
    "% vs Reported " ++ toString p ++ "%"

/-- The AMENDED claim's `calculated_percentage`:
`round((total_awarded / total_possible) * 100)` evaluated in IEEE-754
binary64 arithmetic when the total is positive, 0 otherwise; an overflow
raises instead of producing a value. -/
def calcFloat (ta tp : Int) : Except String Int :=
  if 0 < tp then pyRound100Div ta tp else .ok 0

/-- The amended claim's `mark_consistency_check` string for computed
percentage `c` and reported percentage `p`. -/
def mccOf (c p : Int) : String :=
  if c = p then "Verified"
  else "Inconsistency detected: Calculated " ++ toString c ++
    "% vs Reported " ++ toString p ++ "%"

/-!  Concrete inputs used by witnesses and counterexamples. -/

/-- Model text whose JSON reports details q1 40/50 and percentage 80. -/
def t80 : String :=
  "\x7b\"is_correct_module\": true, \"confidence_assessment_score\": 90, \"marks_percentage\": 80, \"overall_feedback\": \"ok\", \"assessment_details\": \x7b\"q1\": \x7b\"max_marks\": 50, \"awarded_marks\": 40\x7d\x7d\x7d"

/-- Model text whose JSON reports details q1 40/50 but percentage 50. -/
def t50 : String :=
  "\x7b\"is_correct_module\": true, \"confidence_assessment_score\": 90, \"marks_percentage\": 50, \"overall_feedback\": \"ok\", \"assessment_details\": \x7b\"q1\": \x7b\"max_marks\": 50, \"awarded_marks\": 40\x7d\x7d\x7d"

/-- The assessment-details object parsed from `t80`/`t50`. -/
def dtsConc : List (String × Json) :=
  [("q1", Json.obj [("max_marks", Json.num 50), ("awarded_marks", Json.num 40)])]

/-- The assessment object parsed from `t80`. -/
def aConc : List (String × Json) :=
  [("is_correct_module", Json.bool true),
   ("confidence_assessment_score", Json.num 90),
   ("marks_percentage", Json.num 80),
   ("overall_feedback", Json.str "ok"),
   ("assessment_details", Json.obj dtsConc)]

/-- The assessment object parsed from `t50`. -/
def aConc50 : List (String × Json) :=
  [("is_correct_module", Json.bool true),
   ("confidence_assessment_score", Json.num 90),
   ("marks_percentage", Json.num 50),
   ("overall_feedback", Json.str "ok"),
   ("assessment_details", Json.obj dtsConc)]

/-- The assessment-details object of the float-rounding counterexample:
q1 awarded 109 of 200. -/
def dtsCx : List (String × Json) :=
  [("q1", Json.obj [("max_marks", Json.num 200), ("awarded_marks", Json.num 109)])]

/-- The assessment object of the float-rounding counterexample: the exact
rational 100·109/200 = 54.5 rounds half-even to 54, but CPython's
`(109/200)*100` is 54.50000000000001 and rounds to 55, agreeing with the
reported percentage. -/
def aCx : List (String × Json) :=
  [("is_correct_module", Json.bool true),
   ("confidence_assessment_score", Json.num 90),
   ("marks_percentage", Json.num 55),
   ("overall_feedback", Json.str "ok"),
   ("assessment_details", Json.obj dtsCx)]

/-- A model verification answer whose suggested category is off the
allow-list. -/
def tOut : String :=
  "\x7b\"verified\": false, \"confidence\": 10, \"reason\": \"r\", \"correct_category\": \"Payslip\"\x7d"

/-- The object parsed from `tOut`. -/
def vOut : List (String × Json) :=
  [("verified", Json.bool false),
   ("confidence", Json.num 10),
   ("reason", Json.str "r"),
   ("correct_category", Json.str "Payslip")]

/-- A PDF upload. -/
def pdfFile : ReqFile := ⟨"doc.pdf", "application/pdf"⟩

/-- A PNG upload. -/
def pngFile : ReqFile := ⟨"img.png", "image/png"⟩

/-- A model verification answer that names a different category and never
mentions the caller's category. -/
def c4genText : String :=
  "\x7b\"verified\": false, \"confidence\": 10, \"reason\": \"This is a payslip\", \"correct_category\": \"Proof of Income\"\x7d"

/-- The body `unified_ocr` assembles for `c4genText` with caller category
Proof of Identity and OCR outcome `success \"md\" \"fid\" \"https://u\"`:
the caller-supplied category appears nowhere in it. -/
def c4body : Json :=
  Json.obj
    [("category", .str "Proof of Income"),
     ("filename", .str "doc.pdf"),
     ("content_type", .str "application/pdf"),
     ("ocr_type", .str "document"),
     ("markdown", .str "md"),
     ("pages", .num 1),
     ("verification", Json.obj
       [("verified", .bool false),
        ("confidence", .num 10),
        ("reason", .str "This is a payslip"),
        ("correct_category", .str "Proof of Income")]),
     ("file_id", .str "fid"),
     ("file_url", .str "https://u"),
     ("view_url", .str "/file-view/fid")]

/-- The JSON text an empty caller marking scheme arrives as. -/
def emptyObjStr : String := "\x7b\x7d"

/-- The category-gate 400 detail of `unified_ocr` (main.py:643). -/
def catGateDetail : String :=
  "Invalid category. Valid categories: " ++ String.intercalate ", " VALID_CATEGORIES

/-- The module-gate 400 detail of `assess_assignment` (main.py:1272). -/
def modGateDetail : String :=
  "Invalid module. Valid modules: " ++ String.intercalate ", " VALID_MODULES

/-- The media-type-gate 400 detail (main.py:651, 1280). -/
def typeGateDetail : String :=
  "Unsupported file type. Supported types: " ++ String.intercalate ", " valid_types

/-!  Helper lemmas. -/

theorem getKey_setKey_self (l : List (String × Json)) (k : String) (v : Json) :
    getKey (setKey l k v) k = some v := by
  induction l with
  | nil => simp [setKey, getKey]
  | cons kv rest ih =>
    by_cases h : kv.1 = k
    · simp [setKey, getKey, h]
    · simp [setKey, getKey, h, ih]

theorem getKey_setKey_ne (l : List (String × Json)) (k k' : String) (v : Json)
    (h : k' ≠ k) : getKey (setKey l k v) k' = getKey l k' := by
  have h' : k ≠ k' := Ne.symm h
  induction l with
  | nil => simp [setKey, getKey, h']
  | cons kv rest ih =>
    by_cases hk : kv.1 = k
    · simp [setKey, getKey, hk, h']
    · simp [setKey, getKey, hk, ih]

theorem detailMark_awarded (d : Json) (h : detailNumeric d = true) :
    detailMark d "awarded_marks" = .ok (awardedOf d) := by
  cases d with
  | obj kvs =>
    simp only [detailNumeric, Bool.and_eq_true] at h
    unfold detailMark awardedOf jGet
    cases hg : getKey kvs "awarded_marks" with
    | none => simp [hg]
    | some v =>
      cases v <;> simp_all [fieldIntOk, hg]
  | null => simp [detailNumeric] at h
  | bool b => simp [detailNumeric] at h
  | num n => simp [detailNumeric] at h
  | str s => simp [detailNumeric] at h
  | arr xs => simp [detailNumeric] at h

theorem detailMark_max (d : Json) (h : detailNumeric d = true) :
    detailMark d "max_marks" = .ok (maxOf d) := by
  cases d with
  | obj kvs =>
    simp only [detailNumeric, Bool.and_eq_true] at h
    unfold detailMark maxOf jGet
    cases hg : getKey kvs "max_marks" with
    | none => simp [hg]
    | some v =>
      cases v <;> simp_all [fieldIntOk, hg]
  | null => simp [detailNumeric] at h
  | bool b => simp [detailNumeric] at h
  | num n => simp [detailNumeric] at h
  | str s => simp [detailNumeric] at h
  | arr xs => simp [detailNumeric] at h

theorem tallyAux_numeric (dts : List (String × Json))
    (hn : detailsNumeric dts = true) (ta tp : Int) :
    tallyAux ta tp dts = .ok (ta + sumAwarded dts, tp + sumMax dts) := by
  induction dts generalizing ta tp with
  | nil => simp [tallyAux, sumAwarded, sumMax]
  | cons kv rest ih =>
    obtain ⟨k, d⟩ := kv
    simp only [detailsNumeric, List.all_cons, Bool.and_eq_true] at hn
    have h1 := detailMark_awarded d hn.1
    have h2 := detailMark_max d hn.1
    have ih2 := ih hn.2 (ta + awardedOf d) (tp + maxOf d)
    simp only [tallyAux, h1, h2, ih2, sumAwarded, sumMax, List.map_cons,
      List.sum_cons, Int.add_assoc]

theorem tally_numeric (dts : List (String × Json))
    (hn : detailsNumeric dts = true) :
    tally dts = .ok (sumAwarded dts, sumMax dts) := by
  have h := tallyAux_numeric dts hn 0 0
  simpa [tally] using h

theorem floor_intCast_div (n tp : Int) (h : 0 < tp) :
    ⌊(n : Rat) / (tp : Rat)⌋ = n / tp := by
  have htp : (0 : Rat) < (tp : Rat) := by exact_mod_cast h
  have heq : (n / tp) * tp + n % tp = n := by
    have := Int.ediv_add_emod n tp
    linarith [Int.mul_comm tp (n / tp)]
  have hr0 : 0 ≤ n % tp := Int.emod_nonneg n (ne_of_gt h)
  have hrlt : n % tp < tp := Int.emod_lt_of_pos n h
  rw [Int.floor_eq_iff]
  constructor
  · rw [le_div_iff htp]
    have h4 : (n / tp) * tp ≤ n := by omega
    exact_mod_cast h4
  · rw [div_lt_iff htp]
    have hx : (n / tp + 1) * tp = (n / tp) * tp + tp := by ring
    have h5 : n < (n / tp + 1) * tp := by omega
    exact_mod_cast h5

theorem roundPct_eq_spec (ta tp : Int) (h : 0 < tp) :
    roundPct ta tp = ratRoundHalfEven ((100 * ta : Rat) / (tp : Rat)) := by
  have htp : (0 : Rat) < (tp : Rat) := by exact_mod_cast h
  have hcast : ((100 * ta : Int) : Rat) = (100 * ta : Rat) := by push_cast; ring
  set n : Int := 100 * ta with hn
  have hfl : ⌊(100 * ta : Rat) / (tp : Rat)⌋ = n / tp := by
    rw [← hcast]; exact floor_intCast_div n tp h
  have heq : (n / tp) * tp + n % tp = n := by
    have := Int.ediv_add_emod n tp
    linarith [Int.mul_comm tp (n / tp)]
  have heqQ : ((n / tp : Int) : Rat) * (tp : Rat) + ((n % tp : Int) : Rat) =
      ((n : Int) : Rat) := by exact_mod_cast heq
  have hfrac : (100 * ta : Rat) / (tp : Rat) - ((n / tp : Int) : Rat) =
      ((n % tp : Int) : Rat) / (tp : Rat) := by
    rw [← hcast]
    field_simp
    linarith [heqQ]
  have hlt : (((n % tp : Int) : Rat) / (tp : Rat) < 1 / 2) ↔ (2 * (n % tp) < tp) := by
    rw [div_lt_div_iff htp (by norm_num : (0 : Rat) < 2)]
    constructor
    · intro hh
      have h3 : (n % tp) * 2 < 1 * tp := by exact_mod_cast hh
      omega
    · intro hh
      have h3 : ((n % tp) * 2 : Int) < 1 * tp := by omega
      exact_mod_cast h3
  have hgt : ((1 : Rat) / 2 < ((n % tp : Int) : Rat) / (tp : Rat)) ↔ (tp < 2 * (n % tp)) := by
    rw [div_lt_div_iff (by norm_num : (0 : Rat) < 2) htp]
    constructor
    · intro hh
      have h3 : (1 * tp : Int) < (n % tp) * 2 := by exact_mod_cast hh
      omega
    · intro hh
      have h3 : ((1 * tp : Int)) < (n % tp) * 2 := by omega
      exact_mod_cast h3
  unfold roundPct ratRoundHalfEven
  simp only [hfl, hfrac]
  by_cases h1 : 2 * (n % tp) < tp
  · rw [if_pos (hlt.mpr h1), if_pos (show 2 * (n % tp) < tp from h1)]
  · rw [if_neg (fun hc => h1 (hlt.mp hc)), if_neg (show ¬ 2 * (n % tp) < tp from h1)]
    by_cases h2 : tp < 2 * (n % tp)
    · rw [if_pos (hgt.mpr h2), if_pos (show tp < 2 * (n % tp) from h2)]
    · rw [if_neg (fun hc => h2 (hgt.mp hc)), if_neg (show ¬ tp < 2 * (n % tp) from h2)]

theorem codeCalc_eq_calcPct (ta tp : Int) :
    (if 0 < tp then roundPct ta tp else 0) = calcPct ta tp := by
  unfold calcPct
  by_cases h : 0 < tp
  · simp only [if_pos h, roundPct_eq_spec ta tp h]
  · simp only [if_neg h]

theorem consistencyAnnotate_numeric (a dts : List (String × Json)) (p c : Int)
    (hd : getKey a "assessment_details" = some (Json.obj dts))
    (hn : detailsNumeric dts = true)
    (hp : getKey a "marks_percentage" = some (Json.num p))
    (hc : calcFloat (sumAwarded dts) (sumMax dts) = .ok c) :
    consistencyAnnotate a =
      .ok (setKey a "mark_consistency_check" (Json.str (mccOf c p))) := by
  unfold calcFloat at hc
  simp only [consistencyAnnotate, assessDetailsOf, hd, tally_numeric dts hn,
    hc, hp, Option.getD_some]
  unfold mccOf
  by_cases hcp : c = p
  · simp only [pyEqInt, hcp, beq_self_eq_true, if_pos rfl, if_pos trivial]
  · have hb : (c == p) = false := beq_eq_false_iff_ne.mpr hcp
    simp only [pyEqInt, hb, Bool.false_eq_true, if_false, if_neg hcp, pyStr]

theorem consistencyAnnotate_calc_error (a dts : List (String × Json))
    (em : String)
    (hd : getKey a "assessment_details" = some (Json.obj dts))
    (hn : detailsNumeric dts = true)
    (hc : calcFloat (sumAwarded dts) (sumMax dts) = .error em) :
    consistencyAnnotate a = .error em := by
  unfold calcFloat at hc
  simp only [consistencyAnnotate, assessDetailsOf, hd, tally_numeric dts hn, hc]

theorem consistencyAnnotate_shape (a a2 : List (String × Json))
    (h : consistencyAnnotate a = .ok a2) :
    ∃ v : String, a2 = setKey a "mark_consistency_check" (Json.str v) := by
  unfold consistencyAnnotate at h
  cases hd : assessDetailsOf a with
  | error e => simp [hd] at h
  | ok dts =>
    simp only [hd] at h
    cases ht : tally dts with
    | error e => simp [ht] at h
    | ok tap =>
      obtain ⟨ta, tp⟩ := tap
      simp only [ht] at h
      cases hcE : (if 0 < tp then pyRound100Div ta tp else Except.ok 0 :
          Except String Int) with
      | error e => simp [hcE] at h
      | ok c =>
        simp only [hcE, Except.ok.injEq] at h
        exact ⟨_, h.symm⟩

theorem verifyMainCore_ok_correct_category (category : String)
    (gen : GenOutcome) (v : List (String × Json))
    (h : verifyMainCore category gen = .ok v) (hc : category ∈ VALID_CATEGORIES) :
    ∃ s, getKey v "correct_category" = some (Json.str s) ∧
      s ∈ VALID_CATEGORIES := by
  cases gen with
  | raised m => simp [verifyMainCore] at h
  | text t =>
    unfold verifyMainCore at h
    cases hp : parseJson t with
    | error e => simp [hp] at h
    | ok j =>
      cases j with
      | obj w =>
        simp only [hp] at h
        by_cases hreq : requiredVerifyKeys.all (fun k => hasKey w k) = true
        · simp only [hreq, if_true, Except.ok.injEq] at h
          cases hg : getKey w "correct_category" with
          | none =>
            simp only [hg] at h
            exact ⟨category, h ▸ getKey_setKey_self w _ _, hc⟩
          | some cc =>
            cases cc with
            | str s =>
              simp only [hg] at h
              by_cases hs : s ∈ VALID_CATEGORIES
              · rw [if_pos hs] at h
                exact ⟨s, h ▸ hg, hs⟩
              · rw [if_neg hs] at h
                exact ⟨category, h ▸ getKey_setKey_self w _ _, hc⟩
            | null =>
              simp only [hg] at h
              exact ⟨category, h ▸ getKey_setKey_self w _ _, hc⟩
            | bool b =>
              simp only [hg] at h
              exact ⟨category, h ▸ getKey_setKey_self w _ _, hc⟩
            | num n =>
              simp only [hg] at h
              exact ⟨category, h ▸ getKey_setKey_self w _ _, hc⟩
            | arr xs =>
              simp only [hg] at h
              exact ⟨category, h ▸ getKey_setKey_self w _ _, hc⟩
            | obj kvs =>
              simp only [hg] at h
              exact ⟨category, h ▸ getKey_setKey_self w _ _, hc⟩
        · simp only [hreq] at h
          simp at h
      | null => simp [hp] at h
      | bool b => simp [hp] at h
      | num n => simp [hp] at h
      | str s => simp [hp] at h
      | arr xs => simp [hp] at h

set_option maxRecDepth 400000

/-- C1 (counterexample): the claim's formula
`round(100 * total_awarded / total_possible)` — exact-rational rounding —
disagrees with the program. At q1 awarded 109 of 200 with reported
percentage 55, CPython's `round((109/200)*100)` (main.py:1145) evaluates
`(109/200)*100` to the double 54.50000000000001 and rounds to 55, so the
code writes `"Verified"`; the claim's formula gives
round-half-even(54.5) = 54 and demands the inconsistency message. -/
theorem C1_float_rounding_counterexample :
    consistencyAnnotate aCx =
      .ok (setKey aCx "mark_consistency_check" (Json.str "Verified")) ∧
    calcPct 109 200 = 54 ∧
    mccSpec 109 200 55 =
      "Inconsistency detected: Calculated 54% vs Reported 55%" ∧
    ("Verified" : String) ≠
      "Inconsistency detected: Calculated 54% vs Reported 55%" := by
  have hcalc : calcPct 109 200 = 54 := by
    rw [← codeCalc_eq_calcPct]
    decide
  refine ⟨by rfl, hcalc, ?_, by decide⟩
  unfold mccSpec
  rw [hcalc]
  rfl

/-- C1 (amended): for every parsed assessment object with the required
keys and integer mark fields, the pipeline computes `total_awarded` and
`total_possible` as the sums of the awarded/max fields (missing fields
count 0) and `calculated_percentage` as
`round((total_awarded / total_possible) * 100)` evaluated in IEEE-754
binary64 arithmetic when the total is positive (0 otherwise), writing
`mark_consistency_check = "Verified"` exactly on agreement with the
reported `marks_percentage` and otherwise a message naming both
percentages; an overflow in the float arithmetic raises instead and
produces the error fallback. The claim's concrete examples hold: details
q1 40/50 with reported 80 yield `"Verified"` (the float value is exactly
80.0) and with reported 50 an inconsistency message containing both `80`
and `50`. -/
theorem C1_assessment_mark_consistency :
    (∀ (t : String) (a dts : List (String × Json)) (p c : Int),
      extractThenParse t = .ok (Json.obj a) →
      requiredAssessKeys.all (fun k => hasKey a k) = true →
      getKey a "assessment_details" = some (Json.obj dts) →
      detailsNumeric dts = true →
      getKey a "marks_percentage" = some (Json.num p) →
      calcFloat (sumAwarded dts) (sumMax dts) = .ok c →
      assessCore (GenOutcome.text t) =
        .ok (setKey a "mark_consistency_check" (Json.str (mccOf c p)))) ∧
    (∀ (t : String) (a dts : List (String × Json)) (em : String),
      extractThenParse t = .ok (Json.obj a) →
      requiredAssessKeys.all (fun k => hasKey a k) = true →
      getKey a "assessment_details" = some (Json.obj dts) →
      detailsNumeric dts = true →
      calcFloat (sumAwarded dts) (sumMax dts) = .error em →
      assessCore (GenOutcome.text t) = .error em) ∧
    jGet (assess_submitted_assignment_v1 (GenOutcome.text t80))
      "mark_consistency_check" = some (Json.str "Verified") ∧
    jGet (assess_submitted_assignment_v1 (GenOutcome.text t50))
      "mark_consistency_check" =
      some (Json.str "Inconsistency detected: Calculated 80% vs Reported 50%") ∧
    List.IsInfix "80".toList
      ("Inconsistency detected: Calculated 80% vs Reported 50%").toList ∧
    List.IsInfix "50".toList
      ("Inconsistency detected: Calculated 80% vs Reported 50%").toList := by
  refine ⟨?_, ?_, by rfl, by rfl, by decide, by decide⟩
  · intro t a dts p c hparse hreq hd hn hp hc
    simp only [assessCore, hparse, hreq, if_true]
    exact consistencyAnnotate_numeric a dts p c hd hn hp hc
  · intro t a dts em hparse hreq hd hn hc
    simp only [assessCore, hparse, hreq, if_true]
    exact consistencyAnnotate_calc_error a dts em hd hn hc

/-- Witness for C1 (amended): the universal part applied to the concrete
`q1 = 40/50, reported 80` response text, whose float percentage is 80. -/
theorem C1_assessment_mark_consistency_witness :
    assessCore (GenOutcome.text t80) =
      .ok (setKey aConc "mark_consistency_check"
        (Json.str (mccOf 80 80))) :=
  C1_assessment_mark_consistency.1 t80 aConc dtsConc 80 80 (by rfl) (by rfl)
    (by rfl) (by rfl) (by rfl) (by rfl)

/-- C2: the consistency check only writes `mark_consistency_check` (and, in
the v2 variant, `marking_scheme_used`): every other key, in particular the
reported `marks_percentage`, is returned unchanged. -/
theorem C2_consistency_check_frame :
    ∀ a a2 : List (String × Json), consistencyAnnotate a = .ok a2 →
      (∀ k, k ≠ "mark_consistency_check" → getKey a2 k = getKey a k) ∧
      getKey a2 "marks_percentage" = getKey a "marks_percentage" ∧
      (∀ (scheme : Option Json) (k : String), k ≠ "mark_consistency_check" →
        k ≠ "marking_scheme_used" →
        getKey (setKey a2 "marking_scheme_used" (Json.bool scheme.isSome)) k =
          getKey a k) := by
  intro a a2 h
  obtain ⟨v, hv⟩ := consistencyAnnotate_shape a a2 h
  subst hv
  refine ⟨?_, ?_, ?_⟩
  · intro k hk
    exact getKey_setKey_ne a "mark_consistency_check" k (Json.str v) hk
  · exact getKey_setKey_ne a _ _ _ (by decide)
  · intro scheme k hk1 hk2
    rw [getKey_setKey_ne _ "marking_scheme_used" k _ hk2,
      getKey_setKey_ne a "mark_consistency_check" k _ hk1]

/-- Witness for C2: on the concrete Verified run, the reported
`marks_percentage` is returned unchanged. -/
theorem C2_consistency_check_frame_witness :
    getKey (setKey aConc "mark_consistency_check" (Json.str "Verified"))
      "marks_percentage" = getKey aConc "marks_percentage" :=
  (C2_consistency_check_frame aConc _ (by rfl)).2.1

theorem verify_cc_mem (category : String) (gen : GenOutcome)
    (hc : category ∈ VALID_CATEGORIES) :
    ∃ s, jGet (verify_document_category category gen) "correct_category" =
      some (Json.str s) ∧ s ∈ VALID_CATEGORIES := by
  unfold verify_document_category
  cases hcore : verifyMainCore category gen with
  | ok v =>
    obtain ⟨s, hs, hmem⟩ := verifyMainCore_ok_correct_category category gen v hcore hc
    exact ⟨s, by simp [jGet, hs], hmem⟩
  | error m => exact ⟨category, rfl, hc⟩

theorem verifyMain_text_ok (category t : String) (v : List (String × Json))
    (hp : parseJson t = .ok (Json.obj v))
    (hreq : requiredVerifyKeys.all (fun k => hasKey v k) = true) :
    verifyMainCore category (GenOutcome.text t) =
      .ok (match getKey v "correct_category" with
        | some (Json.str s) =>
          if s ∈ VALID_CATEGORIES then v
          else setKey v "correct_category" (Json.str category)
        | _ => setKey v "correct_category" (Json.str category)) := by
  simp only [verifyMainCore, hp, hreq, if_true]

/-- C3: whenever the caller-supplied category is on the 5-category
allow-list, `correct_category` in the object returned by main.py's
`verify_document_category` is a member of that allow-list; moreover, on
every failure path it is exactly the caller-supplied category, and on the
success path a suggestion that is on the list is kept while a suggestion
off the list — or any non-string value — is replaced by exactly the
caller-supplied category. -/
theorem C3_correct_category_allowlist :
    ∀ (category : String) (gen : GenOutcome), category ∈ VALID_CATEGORIES →
      (∃ s, jGet (verify_document_category category gen) "correct_category" =
        some (Json.str s) ∧ s ∈ VALID_CATEGORIES) ∧
      (∀ m, verifyMainCore category gen = .error m →
        jGet (verify_document_category category gen) "correct_category" =
          some (Json.str category)) ∧
      (∀ (t : String) (v : List (String × Json)), gen = GenOutcome.text t →
        parseJson t = .ok (Json.obj v) →
        requiredVerifyKeys.all (fun k => hasKey v k) = true →
        (∀ s, getKey v "correct_category" = some (Json.str s) →
          (s ∈ VALID_CATEGORIES →
            jGet (verify_document_category category gen) "correct_category" =
              some (Json.str s)) ∧
          (s ∉ VALID_CATEGORIES →
            jGet (verify_document_category category gen) "correct_category" =
              some (Json.str category))) ∧
        ((∀ s, getKey v "correct_category" ≠ some (Json.str s)) →
          jGet (verify_document_category category gen) "correct_category" =
            some (Json.str category))) := by
  intro category gen hc
  refine ⟨verify_cc_mem category gen hc, ?_, ?_⟩
  · intro m h
    have he : verify_document_category category gen =
        errorVerification category m := by
      unfold verify_document_category; rw [h]
    rw [he]; rfl
  · intro t v hgen hp hreq
    subst hgen
    have hcore := verifyMain_text_ok category t v hp hreq
    constructor
    · intro s hs
      constructor
      · intro hin
        have hv : verify_document_category category (GenOutcome.text t) =
            Json.obj v := by
          unfold verify_document_category
          rw [hcore, hs]
          simp only [if_pos hin]
        rw [hv]
        exact hs
      · intro hout
        have hv : verify_document_category category (GenOutcome.text t) =
            Json.obj (setKey v "correct_category" (Json.str category)) := by
          unfold verify_document_category
          rw [hcore, hs]
          simp only [if_neg hout]
        rw [hv]
        exact getKey_setKey_self v "correct_category" (Json.str category)
    · intro hnone
      have hv : verify_document_category category (GenOutcome.text t) =
          Json.obj (setKey v "correct_category" (Json.str category)) := by
        unfold verify_document_category
        rw [hcore]
        cases hg : getKey v "correct_category" with
        | none => rfl
        | some cc =>
          cases cc with
          | str s => exact absurd hg (hnone s)
          | null => rfl
          | bool b => rfl
          | num n => rfl
          | arr xs => rfl
          | obj kvs => rfl
      rw [hv]
      exact getKey_setKey_self v "correct_category" (Json.str category)

/-- Witness for C3: a provider failure yields exactly the caller's
category, and a concrete off-list suggestion ("Payslip") is coerced back
to exactly the caller's category. -/
theorem C3_correct_category_allowlist_witness :
    jGet (verify_document_category "Proof of Identity"
        (GenOutcome.raised "provider down")) "correct_category" =
      some (Json.str "Proof of Identity") ∧
    jGet (verify_document_category "Proof of Identity"
        (GenOutcome.text tOut)) "correct_category" =
      some (Json.str "Proof of Identity") :=
  ⟨(C3_correct_category_allowlist "Proof of Identity"
      (GenOutcome.raised "provider down") (by decide)).2.1 "provider down" rfl,
   (((C3_correct_category_allowlist "Proof of Identity"
      (GenOutcome.text tOut) (by decide)).2.2 tOut vOut rfl (by rfl)
      (by rfl)).1 "Payslip" (by rfl)).2 (by decide)⟩

/-- C4 (counterexample): on a successful verify-document request whose
verifier names a different category, the assembled body's `category` is
the verifier's suggestion, not the original caller-supplied category —
the full body `c4body` contains the caller's "Proof of Identity" nowhere. -/
theorem C4_response_assembly_counterexample :
    (unified_ocr "Proof of Identity" pdfFile
        (OcrOutcome.success "md" "fid" "https://u")
        (GenOutcome.text c4genText)).1 = HttpResult.ok c4body ∧
    jGet c4body "category" = some (Json.str "Proof of Income") ∧
    jGet c4body "category" ≠ some (Json.str "Proof of Identity") := by
  refine ⟨by rfl, by rfl, ?_⟩
  intro h
  simp [c4body, jGet, getKey] at h

/-- C4 (amended): the success-path response body of `unified_ocr` carries
the verifier-corrected category — a member of the 5-category allow-list,
equal to the caller's category only when the verifier agrees or
verification failed — together with filename, content type, inferred OCR
kind, estimated page count, provider file id and URL, view URL, and the
verification payload. -/
theorem C4_response_assembly_amended :
    ∀ (category : String) (file : ReqFile) (md fid furl : String)
      (gen : GenOutcome), category ∈ VALID_CATEGORIES →
      file.content_type ∈ valid_types →
      (unified_ocr category file (OcrOutcome.success md fid furl) gen).1 =
        HttpResult.ok (Json.obj
          [("category",
            (jGet (verify_document_category category gen)
              "correct_category").getD (Json.str category)),
           ("filename", .str file.filename),
           ("content_type", .str file.content_type),
           ("ocr_type", .str (if file.content_type = "application/pdf"
              then "document" else "image")),
           ("markdown", .str md),
           ("pages", .num ((countNN md.toList : Int) + 1)),
           ("verification", verify_document_category category gen),
           ("file_id", .str fid),
           ("file_url", .str furl),
           ("view_url", .str ("/file-view/" ++ fid))]) ∧
      (∃ s, (jGet (verify_document_category category gen)
          "correct_category").getD (Json.str category) = Json.str s ∧
        s ∈ VALID_CATEGORIES) := by
  intro category file md fid furl gen hc hty
  constructor
  · have h1 : ¬ category ∉ VALID_CATEGORIES := not_not_intro hc
    have h2 : ¬ file.content_type ∉ valid_types := not_not_intro hty
    simp only [unified_ocr, if_neg h1, if_neg h2, process_file_run]
  · obtain ⟨s, hs, hmem⟩ := verify_cc_mem category gen hc
    exact ⟨s, by rw [hs]; rfl, hmem⟩

/-- Witness for C4 (amended): the corrected category of a concrete failed
verification is on the allow-list. -/
theorem C4_response_assembly_amended_witness :
    ∃ s, (jGet (verify_document_category "Proof of Identity"
        (GenOutcome.raised "x")) "correct_category").getD
      (Json.str "Proof of Identity") = Json.str s ∧ s ∈ VALID_CATEGORIES :=
  (C4_response_assembly_amended "Proof of Identity" pdfFile "md" "fid"
    "https://u" (GenOutcome.raised "x") (by decide) (by decide)).2

/-- C5 (counterexample): when reading the upload stream (or writing it to
the temporary file) raises, the exception fires before `tmp_path` is
assigned, the `except` clause's `'tmp_path' in locals()` guard skips the
unlink, and the temporary file remains on disk. -/
theorem C5_temp_cleanup_counterexample :
    (process_file_run (OcrOutcome.earlyFail "read failed")).1.onDisk = true ∧
    (process_file_run (OcrOutcome.earlyFail "read failed")).2 =
      Except.error "OCR processing failed: read failed" := ⟨rfl, rfl⟩

/-- C5 (amended): on every `process_file` exit path on which the upload
bytes were written and `tmp_path` assigned — the success path and all
three provider-call failure paths — no temporary file remains on disk. -/
theorem C5_temp_cleanup_amended :
    ∀ o : OcrOutcome, (∀ m, o ≠ OcrOutcome.earlyFail m) →
      (process_file_run o).1.onDisk = false := by
  intro o h
  cases o with
  | earlyFail m => exact absurd rfl (h m)
  | uploadFail m => rfl
  | signFail m => rfl
  | ocrFail m => rfl
  | success md fid furl => rfl

/-- Witness for C5 (amended): a failing provider upload still leaves no
temporary file. -/
theorem C5_temp_cleanup_amended_witness :
    (process_file_run (OcrOutcome.uploadFail "upload failed")).1.onDisk = false :=
  C5_temp_cleanup_amended (OcrOutcome.uploadFail "upload failed")
    (fun _ h => OcrOutcome.noConfusion h)

/-- C6: every post-validation failure of the verification/assessment
pipelines (provider raise, no JSON found in the model text, JSON parse
error, missing required key — i.e. any `Except.error` of the translated
`try:` bodies) is converted rather than raised: main.py verification
returns verified=false, confidence=0 and a reason naming the failure;
ocr.py verification does the same plus empty missing_fields; assessment
returns a structurally complete object with marks_percentage=0 and empty
assessment_details. -/
theorem C6_failure_objects :
    ∀ (category : String) (gen : GenOutcome) (m : String),
      (verifyMainCore category gen = .error m →
        verify_document_category category gen = errorVerification category m ∧
        jGet (verify_document_category category gen) "verified" =
          some (Json.bool false) ∧
        jGet (verify_document_category category gen) "confidence" =
          some (Json.num 0) ∧
        jGet (verify_document_category category gen) "reason" =
          some (Json.str ("Verification failed: " ++ m))) ∧
      (verifyOcrCore gen = .error m →
        verify_document_category_ocr gen = errorVerificationOcr m ∧
        jGet (verify_document_category_ocr gen) "verified" =
          some (Json.bool false) ∧
        jGet (verify_document_category_ocr gen) "confidence" =
          some (Json.num 0) ∧
        jGet (verify_document_category_ocr gen) "reason" =
          some (Json.str ("Verification failed: " ++ m)) ∧
        jGet (verify_document_category_ocr gen) "missing_fields" =
          some (Json.arr [])) ∧
      (assessCore gen = .error m →
        assess_submitted_assignment_v1 gen = errorAssessmentV1 m ∧
        jGet (assess_submitted_assignment_v1 gen) "marks_percentage" =
          some (Json.num 0) ∧
        jGet (assess_submitted_assignment_v1 gen) "assessment_details" =
          some (Json.obj []) ∧
        requiredAssessKeys.all
          (fun k => (jGet (assess_submitted_assignment_v1 gen) k).isSome) =
          true) := by
  intro category gen m
  refine ⟨?_, ?_, ?_⟩
  · intro h
    have he : verify_document_category category gen =
        errorVerification category m := by
      unfold verify_document_category; rw [h]
    exact ⟨he, by rw [he]; rfl, by rw [he]; rfl, by rw [he]; rfl⟩
  · intro h
    have he : verify_document_category_ocr gen = errorVerificationOcr m := by
      unfold verify_document_category_ocr; rw [h]
    exact ⟨he, by rw [he]; rfl, by rw [he]; rfl, by rw [he]; rfl,
      by rw [he]; rfl⟩
  · intro h
    have he : assess_submitted_assignment_v1 gen = errorAssessmentV1 m := by
      unfold assess_submitted_assignment_v1; rw [h]
    exact ⟨he, by rw [he]; rfl, by rw [he]; rfl, by rw [he]; rfl⟩

/-- Witness for C6: a raised provider call yields the fallback objects. -/
theorem C6_failure_objects_witness :
    assess_submitted_assignment_v1 (GenOutcome.raised "boom") =
      errorAssessmentV1 "boom" ∧
    verify_document_category "Proof of Identity" (GenOutcome.raised "boom") =
      errorVerification "Proof of Identity" "boom" ∧
    verify_document_category_ocr (GenOutcome.raised "boom") =
      errorVerificationOcr "boom" :=
  ⟨((C6_failure_objects "Proof of Identity" (GenOutcome.raised "boom")
      "boom").2.2 rfl).1,
   ((C6_failure_objects "Proof of Identity" (GenOutcome.raised "boom")
      "boom").1 rfl).1,
   ((C6_failure_objects "Proof of Identity" (GenOutcome.raised "boom")
      "boom").2.1 rfl).1⟩

/-- C7: an out-of-list category/module or an unsupported declared content
type is rejected with a 400 whose detail enumerates the valid values, and
zero provider calls are made; in particular the lowercase
"proof of identity" is rejected (matching is exact and case-sensitive). -/
theorem C7_gates_reject_before_provider :
    (∀ (category : String) (file : ReqFile) (ocr : OcrOutcome)
      (gen : GenOutcome), category ∉ VALID_CATEGORIES →
      unified_ocr category file ocr gen = (.err 400 catGateDetail, 0)) ∧
    (∀ (category : String) (file : ReqFile) (ocr : OcrOutcome)
      (gen : GenOutcome), category ∈ VALID_CATEGORIES →
      file.content_type ∉ valid_types →
      unified_ocr category file ocr gen = (.err 400 typeGateDetail, 0)) ∧
    (∀ (module : String) (file : ReqFile) (ocr : OcrOutcome)
      (gen : GenOutcome), module ∉ VALID_MODULES →
      assess_assignment_endpoint_v1 module file ocr gen =
        (.err 400 modGateDetail, 0)) ∧
    (∀ (module : String) (file : ReqFile) (ocr : OcrOutcome)
      (gen : GenOutcome), module ∈ VALID_MODULES →
      file.content_type ∉ valid_types →
      assess_assignment_endpoint_v1 module file ocr gen =
        (.err 400 typeGateDetail, 0)) ∧
    "proof of identity" ∉ VALID_CATEGORIES ∧
    (∀ c ∈ VALID_CATEGORIES, List.IsInfix c.toList catGateDetail.toList) ∧
    (∀ ty ∈ valid_types, List.IsInfix ty.toList typeGateDetail.toList) ∧
    (∀ mo ∈ VALID_MODULES, List.IsInfix mo.toList modGateDetail.toList) := by
  refine ⟨?_, ?_, ?_, ?_, by decide, by decide, by decide, by decide⟩
  · intro category file ocr gen h
    simp only [unified_ocr, if_pos h, catGateDetail]
  · intro category file ocr gen hc h
    simp only [unified_ocr, if_neg (not_not_intro hc), if_pos h, typeGateDetail]
  · intro module file ocr gen h
    simp only [assess_assignment_endpoint_v1, if_pos h, modGateDetail]
  · intro module file ocr gen hm h
    simp only [assess_assignment_endpoint_v1, if_neg (not_not_intro hm),
      if_pos h, typeGateDetail]

/-- Witness for C7: the lowercase category is rejected with zero provider
calls. -/
theorem C7_gates_reject_before_provider_witness :
    unified_ocr "proof of identity" pdfFile
      (OcrOutcome.success "md" "fid" "u") (GenOutcome.raised "x") =
      (.err 400 catGateDetail, 0) :=
  C7_gates_reject_before_provider.1 "proof of identity" pdfFile
    (OcrOutcome.success "md" "fid" "u") (GenOutcome.raised "x") (by decide)

theorem generalLoop_success (files : List (ReqFile × OcrOutcome)) :
    (∀ fo ∈ files, fo.2.isSuccess = true) → ∀ (acc : List Json) (n : Nat),
    generalLoop files acc n =
      (.ok (Json.arr (acc.reverse ++
        files.map (fun fo => generalEntry fo.1 fo.2))),
       n + 3 * files.length) := by
  induction files with
  | nil => intro _ acc n; simp [generalLoop]
  | cons fo rest ih =>
    intro hs acc n
    obtain ⟨f, o⟩ := fo
    have ho : OcrOutcome.isSuccess o = true := hs (f, o) (List.mem_cons_self _ _)
    cases o with
    | earlyFail m => simp [OcrOutcome.isSuccess] at ho
    | uploadFail m => simp [OcrOutcome.isSuccess] at ho
    | signFail m => simp [OcrOutcome.isSuccess] at ho
    | ocrFail m => simp [OcrOutcome.isSuccess] at ho
    | success md fid furl =>
      have hrest : ∀ fo ∈ rest, OcrOutcome.isSuccess fo.2 = true :=
        fun x hx => hs x (List.mem_cons_of_mem _ hx)
      simp only [generalLoop, process_file_run, ih hrest, ocrCalls,
        List.map_cons, List.reverse_cons, List.append_assoc,
        List.singleton_append, List.length_cons, Prod.mk.injEq]
      exact ⟨trivial, by omega⟩

/-- C8 (counterexample): a batch of one valid-typed PDF whose OCR call
fails yields a 500 error response, not an array with one entry per file. -/
theorem C8_batch_counterexample :
    (general_ocr [(pdfFile, OcrOutcome.ocrFail "boom")]).1 =
      HttpResult.err 500
        "OCR processing failed: 500: OCR processing failed: boom" ∧
    isArrayResult (general_ocr [(pdfFile, OcrOutcome.ocrFail "boom")]).1 =
      false ∧
    pdfFile.content_type ∈ valid_types := ⟨rfl, rfl, by decide⟩

/-- C8 (amended): an invalid declared content type anywhere in the batch
aborts the whole request with a 400 before any provider call; when all
types are valid and every OCR call succeeds, the response is an array with
exactly one entry per uploaded file in upload order, each carrying
documentName, markdown, file_id, file_url and view_url; (per the
counterexample, a mid-batch OCR failure instead aborts the whole request
with a 500, still returning no partial results). -/
theorem C8_batch_contract_amended :
    (∀ files : List (ReqFile × OcrOutcome),
      (∃ fo ∈ files, fo.1.content_type ∉ valid_types) →
      (general_ocr files).2 = 0 ∧
      ∃ d, (general_ocr files).1 = HttpResult.err 400 d) ∧
    (∀ files : List (ReqFile × OcrOutcome),
      (∀ fo ∈ files, fo.1.content_type ∈ valid_types) →
      (∀ fo ∈ files, fo.2.isSuccess = true) →
      (general_ocr files).1 =
        HttpResult.ok (Json.arr
          (files.map (fun fo => generalEntry fo.1 fo.2))) ∧
      (files.map (fun fo => generalEntry fo.1 fo.2)).length = files.length ∧
      ∀ fo ∈ files,
        (jGet (generalEntry fo.1 fo.2) "documentName").isSome = true ∧
        (jGet (generalEntry fo.1 fo.2) "markdown").isSome = true ∧
        (jGet (generalEntry fo.1 fo.2) "file_id").isSome = true ∧
        (jGet (generalEntry fo.1 fo.2) "file_url").isSome = true ∧
        (jGet (generalEntry fo.1 fo.2) "view_url").isSome = true) := by
  constructor
  · rintro files ⟨fo, hmem, hty⟩
    have hfo : fo ∈ files.filter
        (fun x => x.1.content_type ∉ valid_types) :=
      List.mem_filter.mpr ⟨hmem, by simpa using hty⟩
    have hne : files.filter (fun x => x.1.content_type ∉ valid_types) ≠ [] :=
      List.ne_nil_of_mem hfo
    have hmapne : (files.filter
        (fun x => x.1.content_type ∉ valid_types)).map
        (fun x => x.1.filename) ≠ [] := by
      simpa using hne
    have hcond : (!((files.filter
        (fun x => x.1.content_type ∉ valid_types)).map
        (fun x => x.1.filename)).isEmpty) = true := by
      cases hl : (files.filter (fun x => x.1.content_type ∉ valid_types)).map
          (fun x => x.1.filename) with
      | nil => exact absurd hl hmapne
      | cons y ys => rfl
    simp only [general_ocr]
    rw [hcond]
    exact ⟨rfl, _, rfl⟩
  · intro files hty hs
    refine ⟨?_, by simp, ?_⟩
    · have hcond : ((files.filter
          (fun x => x.1.content_type ∉ valid_types)).map
          (fun x => x.1.filename)).isEmpty = true := by
        simp
        exact fun a b hab => hty (a, b) hab
      simp only [general_ocr, hcond, Bool.not_true, Bool.false_eq_true,
        if_false, generalLoop_success files hs [] 0, List.reverse_nil,
        List.nil_append]
    · intro fo hmem
      have ho := hs fo hmem
      cases hoc : fo.2 with
      | success md fid furl => simp [generalEntry, jGet, getKey]
      | earlyFail m => rw [hoc] at ho; simp [OcrOutcome.isSuccess] at ho
      | uploadFail m => rw [hoc] at ho; simp [OcrOutcome.isSuccess] at ho
      | signFail m => rw [hoc] at ho; simp [OcrOutcome.isSuccess] at ho
      | ocrFail m => rw [hoc] at ho; simp [OcrOutcome.isSuccess] at ho

/-- Witness for C8 (amended): the spec's end-to-end scenario, one PNG and
one PDF, both OCR calls succeeding: the body is the two-entry array. -/
theorem C8_batch_contract_amended_witness :
    (general_ocr [(pngFile, OcrOutcome.success "m1" "f1" "u1"),
        (pdfFile, OcrOutcome.success "m2" "f2" "u2")]).1 =
      HttpResult.ok (Json.arr
        ([(pngFile, OcrOutcome.success "m1" "f1" "u1"),
          (pdfFile, OcrOutcome.success "m2" "f2" "u2")].map
          (fun fo => generalEntry fo.1 fo.2))) :=
  ((C8_batch_contract_amended.2
    [(pngFile, OcrOutcome.success "m1" "f1" "u1"),
     (pdfFile, OcrOutcome.success "m2" "f2" "u2")]
    (by decide) (by decide)).1)

/-- C9: the v2 `marking_scheme_used` flag is `marking_scheme is not None`,
not "a scheme shaped the prompt": the caller string `\x7b\x7d` parses to
the empty (falsy) object, so the prompt keeps the standard-criteria
section and the response omits the top-level `marking_scheme` key, yet
`marking_scheme_used` is reported `true`. -/
theorem C9_marking_scheme_used_flag :
    (∀ (scheme : Option Json) (gen : GenOutcome) (a : List (String × Json)),
      assessCore gen = .ok a →
      jGet (assess_submitted_assignment_v2 scheme gen) "marking_scheme_used" =
        some (Json.bool scheme.isSome)) ∧
    parseJson emptyObjStr = .ok (Json.obj []) ∧
    promptSchemeSection (some (Json.obj [])) = false ∧
    (some (Json.obj []) : Option Json).isSome = true ∧
    (∀ (module : String) (file : ReqFile) (md fid furl : String)
      (gen : GenOutcome) (a : List (String × Json)),
      module ∈ VALID_MODULES → file.content_type ∈ valid_types →
      assessCore gen = .ok a →
      ∃ body, (assess_assignment_endpoint_v2 module file (some emptyObjStr)
          (OcrOutcome.success md fid furl) gen).1 =
          HttpResult.ok (Json.obj body) ∧
        getKey body "marking_scheme" = none ∧
        getKey body "assessment" =
          some (assess_submitted_assignment_v2 (some (Json.obj [])) gen) ∧
        jGet (assess_submitted_assignment_v2 (some (Json.obj [])) gen)
          "marking_scheme_used" = some (Json.bool true)) := by
  have hflag : ∀ (scheme : Option Json) (gen : GenOutcome)
      (a : List (String × Json)), assessCore gen = .ok a →
      jGet (assess_submitted_assignment_v2 scheme gen) "marking_scheme_used" =
        some (Json.bool scheme.isSome) := by
    intro scheme gen a h
    unfold assess_submitted_assignment_v2
    rw [h]
    exact getKey_setKey_self a "marking_scheme_used" (Json.bool scheme.isSome)
  refine ⟨hflag, by rfl, by rfl, by rfl, ?_⟩
  intro module file md fid furl gen a hm hty h
  have hscheme : parseSchemeParam (some emptyObjStr) =
      .ok (some (Json.obj [])) := by rfl
  refine ⟨[("module", Json.str module),
     ("filename", Json.str file.filename),
     ("content_type", Json.str file.content_type),
     ("ocr_type", Json.str (if file.content_type = "application/pdf"
        then "document" else "image")),
     ("markdown", Json.str md),
     ("pages", Json.num ((countNN md.toList : Int) + 1)),
     ("assessment", assess_submitted_assignment_v2 (some (Json.obj [])) gen),
     ("file_id", Json.str fid),
     ("file_url", Json.str furl),
     ("view_url", Json.str ("/file-view/" ++ fid))], ?_, ?_, ?_, ?_⟩
  · simp only [assess_assignment_endpoint_v2, if_neg (not_not_intro hm),
      if_neg (not_not_intro hty), hscheme, process_file_run, schemeTruthy,
      pyTruthy]
    rfl
  · rfl
  · rfl
  · exact hflag (some (Json.obj [])) gen a h

/-- Witness for C9: the flag is true for the parsed-empty scheme on the
concrete Verified run. -/
theorem C9_marking_scheme_used_flag_witness :
    jGet (assess_submitted_assignment_v2 (some (Json.obj []))
        (GenOutcome.text t80)) "marking_scheme_used" =
      some (Json.bool true) :=
  C9_marking_scheme_used_flag.1 (some (Json.obj [])) (GenOutcome.text t80)
    (setKey aConc "mark_consistency_check" (Json.str "Verified")) (by rfl)

/-- C10: whenever the assessment step fails internally, the object handed
back — inside a 200 response, since nothing is raised — carries
`mark_consistency_check = "Not performed due to error"`, a third value
that is neither `"Verified"` nor of the inconsistency-message form,
together with `marks_percentage = 0` and empty `assessment_details`. -/
theorem C10_error_assessment_shape :
    ∀ (gen : GenOutcome) (m module : String) (file : ReqFile)
      (md fid furl : String),
      assessCore gen = .error m →
      assess_submitted_assignment_v1 gen = errorAssessmentV1 m ∧
      jGet (assess_submitted_assignment_v1 gen) "mark_consistency_check" =
        some (Json.str "Not performed due to error") ∧
      "Not performed due to error" ≠ "Verified" ∧
      ¬ List.IsPrefix ("Inconsistency detected:").toList
        ("Not performed due to error").toList ∧
      (∀ t : String,
        "Not performed due to error" ≠ "Inconsistency detected:" ++ t) ∧
      jGet (assess_submitted_assignment_v1 gen) "marks_percentage" =
        some (Json.num 0) ∧
      jGet (assess_submitted_assignment_v1 gen) "assessment_details" =
        some (Json.obj []) ∧
      (module ∈ VALID_MODULES → file.content_type ∈ valid_types →
        (assess_assignment_endpoint_v1 module file
            (OcrOutcome.success md fid furl) gen).1 =
          HttpResult.ok (Json.obj
            [("module", .str module),
             ("filename", .str file.filename),
             ("content_type", .str file.content_type),
             ("ocr_type", .str (if file.content_type = "application/pdf"
                then "document" else "image")),
             ("markdown", .str md),
             ("pages", .num ((countNN md.toList : Int) + 1)),
             ("assessment", errorAssessmentV1 m),
             ("file_id", .str fid),
             ("file_url", .str furl),
             ("view_url", .str ("/file-view/" ++ fid))])) := by
  intro gen m module file md fid furl h
  have he : assess_submitted_assignment_v1 gen = errorAssessmentV1 m := by
    unfold assess_submitted_assignment_v1; rw [h]
  refine ⟨he, by rw [he]; rfl, by decide, by decide, ?_, by rw [he]; rfl,
    by rw [he]; rfl, ?_⟩
  · intro t hcontra
    have hl : ("Not performed due to error").data =
        ("Inconsistency detected:").data ++ t.data := by
      rw [← String.data_append, hcontra]
    exact absurd ⟨t.data, hl.symm⟩
      (by decide : ¬ List.IsPrefix ("Inconsistency detected:").toList
        ("Not performed due to error").toList)
  · intro hm hty
    simp only [assess_assignment_endpoint_v1, if_neg (not_not_intro hm),
      if_neg (not_not_intro hty), process_file_run, he]

/-- Witness for C10: a raised provider call reports the third value. -/
theorem C10_error_assessment_shape_witness :
    jGet (assess_submitted_assignment_v1 (GenOutcome.raised "boom"))
      "mark_consistency_check" = some (Json.str "Not performed due to error") :=
  ((C10_error_assessment_shape (GenOutcome.raised "boom") "boom"
    "Machine Learning" pdfFile "md" "fid" "furl") rfl).2.1

end Agent263
